import Mathlib

/-!
# Verification of the mixemy generic data-access layer

Shallow embedding of the repository and service layers of `mixemy`
(`src/mixemy/repositories/_sync.py`, `_asyncio.py`, `sync/_base.py`,
`asyncio/_base.py`, `_base/_base.py`, `services/_sync.py`,
`utils/_convertors.py`).

Modelling conventions:
* Python values that the layer inspects become `PValue` (None, ints,
  strings, booleans, lists and nested schema-like objects).
* A pydantic schema object becomes `InputSchema`: a list of named fields,
  each carrying an "explicitly set" flag (pydantic's `exclude_unset`
  tracking).  Field aliases are identified with field names (`by_alias`
  does not change any name in the model).
* A SQLAlchemy model class becomes `ModelType`: the list of its attribute
  names (`hasattr(self.model, item)` is membership) together with its
  primary-key attribute.
* A mapped record instance becomes `DBObject`: an object identity plus an
  attribute assignment.
* The session becomes `SessionState`: the store of persisted records
  (the repository flushes or commits inside every operation, so pending
  and persisted states are not observably distinct to the caller) plus a
  trace of session effects (`add`, `get`, `execute`, `commit`, `flush`,
  `refresh`, `expunge`, `delete`).
* Python keyword-argument binding for the one signature where it matters
  (`_prepare_statement`, whose keyword-only `with_for_update` parameter
  has no default in `_base/_base.py` and `_sync.py`) is modelled
  explicitly: calling with the argument missing is a `TypeError`.
-/

namespace Mixemy

/-- A Python value as far as this layer inspects values: `None`, integers,
strings, booleans, lists, and nested schema-like objects (a list of
name/value pairs). -/
inductive PValue where
  | none
  | int (n : Int)
  | str (s : String)
  | bool (b : Bool)
  | list (vs : List PValue)
  | obj (fields : List (String × PValue))

mutual

def PValue.decEq : (a b : PValue) → Decidable (a = b)
  | .none, .none => .isTrue rfl
  | .none, .int _ => .isFalse (fun h => PValue.noConfusion h)
  | .none, .str _ => .isFalse (fun h => PValue.noConfusion h)
  | .none, .bool _ => .isFalse (fun h => PValue.noConfusion h)
  | .none, .list _ => .isFalse (fun h => PValue.noConfusion h)
  | .none, .obj _ => .isFalse (fun h => PValue.noConfusion h)
  | .int _, .none => .isFalse (fun h => PValue.noConfusion h)
  | .int n, .int m =>
      match (inferInstance : Decidable (n = m)) with
      | .isTrue h => .isTrue (h ▸ rfl)
      | .isFalse h => .isFalse (fun hh => h (PValue.int.inj hh))
  | .int _, .str _ => .isFalse (fun h => PValue.noConfusion h)
  | .int _, .bool _ => .isFalse (fun h => PValue.noConfusion h)
  | .int _, .list _ => .isFalse (fun h => PValue.noConfusion h)
  | .int _, .obj _ => .isFalse (fun h => PValue.noConfusion h)
  | .str _, .none => .isFalse (fun h => PValue.noConfusion h)
  | .str _, .int _ => .isFalse (fun h => PValue.noConfusion h)
  | .str s, .str t =>
      match (inferInstance : Decidable (s = t)) with
      | .isTrue h => .isTrue (h ▸ rfl)
      | .isFalse h => .isFalse (fun hh => h (PValue.str.inj hh))
  | .str _, .bool _ => .isFalse (fun h => PValue.noConfusion h)
  | .str _, .list _ => .isFalse (fun h => PValue.noConfusion h)
  | .str _, .obj _ => .isFalse (fun h => PValue.noConfusion h)
  | .bool _, .none => .isFalse (fun h => PValue.noConfusion h)
  | .bool _, .int _ => .isFalse (fun h => PValue.noConfusion h)
  | .bool _, .str _ => .isFalse (fun h => PValue.noConfusion h)
  | .bool a, .bool b =>
      match (inferInstance : Decidable (a = b)) with
      | .isTrue h => .isTrue (h ▸ rfl)
      | .isFalse h => .isFalse (fun hh => h (PValue.bool.inj hh))
  | .bool _, .list _ => .isFalse (fun h => PValue.noConfusion h)
  | .bool _, .obj _ => .isFalse (fun h => PValue.noConfusion h)
  | .list _, .none => .isFalse (fun h => PValue.noConfusion h)
  | .list _, .int _ => .isFalse (fun h => PValue.noConfusion h)
  | .list _, .str _ => .isFalse (fun h => PValue.noConfusion h)
  | .list _, .bool _ => .isFalse (fun h => PValue.noConfusion h)
  | .list vs, .list ws =>
      match PValue.decEqList vs ws with
      | .isTrue h => .isTrue (h ▸ rfl)
      | .isFalse h => .isFalse (fun hh => h (PValue.list.inj hh))
  | .list _, .obj _ => .isFalse (fun h => PValue.noConfusion h)
  | .obj _, .none => .isFalse (fun h => PValue.noConfusion h)
  | .obj _, .int _ => .isFalse (fun h => PValue.noConfusion h)
  | .obj _, .str _ => .isFalse (fun h => PValue.noConfusion h)
  | .obj _, .bool _ => .isFalse (fun h => PValue.noConfusion h)
  | .obj _, .list _ => .isFalse (fun h => PValue.noConfusion h)
  | .obj fs, .obj gs =>
      match PValue.decEqObj fs gs with
      | .isTrue h => .isTrue (h ▸ rfl)
      | .isFalse h => .isFalse (fun hh => h (PValue.obj.inj hh))

def PValue.decEqList : (a b : List PValue) → Decidable (a = b)
  | [], [] => .isTrue rfl
  | [], _ :: _ => .isFalse (fun h => List.noConfusion h)
  | _ :: _, [] => .isFalse (fun h => List.noConfusion h)
  | x :: xs, y :: ys =>
      match PValue.decEq x y, PValue.decEqList xs ys with
      | .isTrue h1, .isTrue h2 => .isTrue (by rw [h1, h2])
      | .isFalse h1, _ => .isFalse (fun h => h1 (List.cons.inj h).1)
      | _, .isFalse h2 => .isFalse (fun h => h2 (List.cons.inj h).2)

def PValue.decEqObj : (a b : List (String × PValue)) → Decidable (a = b)
  | [], [] => .isTrue rfl
  | [], _ :: _ => .isFalse (fun h => List.noConfusion h)
  | _ :: _, [] => .isFalse (fun h => List.noConfusion h)
  | (s, x) :: xs, (t, y) :: ys =>
      match (inferInstance : Decidable (s = t)), PValue.decEq x y, PValue.decEqObj xs ys with
      | .isTrue h0, .isTrue h1, .isTrue h2 => .isTrue (by rw [h0, h1, h2])
      | .isFalse h0, _, _ =>
          .isFalse (fun h =>
            h0 (congrArg Prod.fst (List.cons.inj h).1))
      | _, .isFalse h1, _ =>
          .isFalse (fun h =>
            h1 (congrArg Prod.snd (List.cons.inj h).1))
      | _, _, .isFalse h2 => .isFalse (fun h => h2 (List.cons.inj h).2)

end

instance : DecidableEq PValue := PValue.decEq

/-- One field of a pydantic schema object: its name, its value, and
whether the caller explicitly set it (pydantic's `exclude_unset`
tracking). -/
structure SchemaField where
  name : String
  value : PValue
  isSet : Bool
deriving DecidableEq

/-- A pydantic schema object (`InputSchema` in `mixemy.schemas`): its
fields, plus whether `isinstance(filters, PaginationFilter)` holds.
The `PaginationFilter` class itself is not under `src/`; per the spec a
pagination-capable filter carries `offset` and `limit` fields, so the
recognition is a flag and the two values are read from the fields. -/
structure InputSchema where
  fields : List SchemaField
  paginationCapable : Bool
deriving DecidableEq

/-- Modelled from the spec: `PaginationFields`, the set of
pagination-only field names excluded from filtering
(`mixemy.schemas.paginations` is not under `src/`; the spec names
`offset`, `limit` as pagination fields and `order_by`, `order_direction`
as the audit ordering fields, all pagination-only). -/
def PaginationFields : List String :=
  ["offset", "limit", "order_by", "order_direction"]

/-- `unpack_schema` from `utils/_convertors.py`:
`schema.model_dump(exclude_unset=..., exclude=..., by_alias=True)`.
Returns the name/value pairs of the schema's fields, keeping a field when
it is explicitly set (or `excludeUnset` is off) and its name is not
excluded.  Aliases are identified with names. -/
def unpackSchema (schema : InputSchema) (excludeUnset : Bool)
    (exclude : List String) : List (String × PValue) :=
  schema.fields.filterMap fun f =>
    if (!excludeUnset || f.isSet) && !exclude.contains f.name then
      some (f.name, f.value)
    else
      Option.none

/-- A SQLAlchemy model class: attribute names (`hasattr(self.model, item)`
is membership in `attrs`) and the primary-key attribute used by
`db_session.get`. -/
structure ModelType where
  attrs : List String
  pkAttr : String
deriving DecidableEq

/-- A mapped record instance: an object identity and an attribute
assignment. -/
structure DBObject where
  oid : Nat
  attrs : List (String × PValue)
deriving DecidableEq

/-- `setattr(db_object, field, value)`: overwrite the value stored under
`field` (instance attributes have unique names; replacing every matching
entry keeps the function total). -/
def DBObject.setAttr (obj : DBObject) (field : String) (v : PValue) :
    DBObject :=
  { obj with
    attrs := obj.attrs.map fun p => if p.1 = field then (p.1, v) else p }

/-- `getattr(db_object, field)` as an optional lookup;
`hasattr(db_object, field)` is `isSome`. -/
def DBObject.getAttr (obj : DBObject) (field : String) : Option PValue :=
  obj.attrs.lookup field

/-- One where-clause test: equality against a value, or membership in a
list of values (`.in_(value)`). -/
inductive PredTest where
  | eq (v : PValue)
  | inList (vs : List PValue)
deriving DecidableEq

/-- One where-clause of a `Select`: the model attribute tested and the
test. -/
structure Pred where
  attr : String
  test : PredTest
deriving DecidableEq

/-- A `Select` statement as this layer builds it: where-clauses, an
optional offset, an optional limit, and the row-lock flag set by
`with_for_update()`. -/
structure SelectStmt where
  preds : List Pred
  offset : Option Nat
  limit : Option Nat
  forUpdate : Bool
deriving DecidableEq

/-- `select(self.model)`: the base statement. -/
def SelectStmt.base : SelectStmt :=
  { preds := [], offset := Option.none, limit := Option.none,
    forUpdate := false }

/-- Does a record satisfy one where-clause? -/
def predHolds (r : DBObject) (p : Pred) : Bool :=
  match r.getAttr p.attr with
  | some v =>
      match p.test with
      | .eq w => v == w
      | .inList ws => ws.contains v
  | Option.none => false

/-- Does a record satisfy every where-clause of a statement? -/
def stmtHolds (stmt : SelectStmt) (r : DBObject) : Bool :=
  stmt.preds.all (predHolds r)

/-- The where-clause `_add_filters` adds for one unpacked filter item, if
any: when the model has the attribute, a membership clause for a
list value and an equality clause otherwise; no clause for an unknown
attribute. -/
def mkFilterPred (model : ModelType) (item : String × PValue) :
    Option Pred :=
  if model.attrs.contains item.1 then
    match item.2 with
    | .list vs => some { attr := item.1, test := .inList vs }
    | v => some { attr := item.1, test := .eq v }
  else
    Option.none

/-- `_add_filters` (`_sync.py` lines 524-539, identically in
`_base/_base.py` and `_asyncio.py`): for each explicitly-set,
non-pagination field of the filter schema whose name is an attribute of
the model, append a where-clause. -/
def addFilters (model : ModelType) (stmt : SelectStmt)
    (filters : Option InputSchema) : SelectStmt :=
  match filters with
  | Option.none => stmt
  | some f =>
      (unpackSchema f true PaginationFields).foldl
        (fun s item =>
          match mkFilterPred model item with
          | some p => { s with preds := s.preds ++ [p] }
          | Option.none => s)
        stmt

/-- Modelled from the spec: the `offset` carried by a pagination-capable
filter (`PaginationFilter.offset`; the class is not under `src/`). -/
def InputSchema.offsetVal (f : InputSchema) : Nat :=
  match f.fields.find? (fun sf => sf.name = "offset") with
  | some sf =>
      match sf.value with
      | .int n => n.toNat
      | _ => 0
  | Option.none => 0

/-- Modelled from the spec: the `limit` carried by a pagination-capable
filter (`PaginationFilter.limit`; the class is not under `src/`).
`none` means no limit (`statement.limit(None)` removes the limit). -/
def InputSchema.limitVal (f : InputSchema) : Option Nat :=
  match f.fields.find? (fun sf => sf.name = "limit") with
  | some sf =>
      match sf.value with
      | .int n => some n.toNat
      | _ => Option.none
  | Option.none => Option.none

/-- `_add_pagination` (`_sync.py` lines 516-522): when the filter object
is recognized as pagination-capable, apply its offset and limit to the
statement. -/
def addPagination (stmt : SelectStmt) (filters : Option InputSchema) :
    SelectStmt :=
  match filters with
  | some f =>
      if f.paginationCapable then
        { stmt with offset := some f.offsetVal, limit := f.limitVal }
      else
        stmt
  | Option.none => stmt

/-- Apply an optional limit (`take`) to a record list. -/
def applyLimit (l : Option Nat) (xs : List DBObject) : List DBObject :=
  match l with
  | some n => xs.take n
  | Option.none => xs

/-- Run a select statement against a store: filter by the where-clauses,
then apply offset and limit.  Store order is the engine order. -/
def runSelect (stmt : SelectStmt) (store : List DBObject) :
    List DBObject :=
  applyLimit stmt.limit
    ((store.filter (stmtHolds stmt)).drop (stmt.offset.getD 0))

/-- A session effect, as observed by the session object.  `get` records
whether a record was found and whether the row-lock option
(`with_for_update`) was requested. -/
inductive Effect where
  | add (oid : Nat)
  | get (found : Bool) (withForUpdate : Bool)
  | executeStmt (stmt : SelectStmt)
  | commit
  | flush
  | refresh (oid : Nat)
  | expunge (oid : Nat)
  | deleteObj (oid : Nat)
deriving DecidableEq

/-- The session: the store of records of the repository's model (in
engine order) and the trace of effects performed so far. -/
structure SessionState where
  store : List DBObject
  log : List Effect
deriving DecidableEq

/-- `db_session.add`: register the object; modelled as an upsert by
object identity (the repository flushes or commits before returning,
making the registration visible). -/
def SessionState.addObj (st : SessionState) (obj : DBObject) :
    SessionState :=
  { store :=
      if st.store.any (fun r => r.oid = obj.oid) then
        st.store.map fun r => if r.oid = obj.oid then obj else r
      else
        st.store ++ [obj],
    log := st.log ++ [.add obj.oid] }

/-- `db_session.delete`: remove the object from the store. -/
def SessionState.deleteObjById (st : SessionState) (oid : Nat) :
    SessionState :=
  { store := st.store.filter (fun r => r.oid ≠ oid),
    log := st.log ++ [.deleteObj oid] }

/-- A repository instance after `__init__`: its model, the resolved
`id_field`, and the resolved `auto_commit` / `auto_refresh` /
`auto_expunge` defaults. -/
structure RepoConfig where
  model : ModelType
  idField : String
  autoCommit : Bool
  autoRefresh : Bool
  autoExpunge : Bool
deriving DecidableEq

/-- The three-valued flag resolution used throughout:
`flag is True or (flag is None and default)` (note that for a boolean
flag this is exactly "explicit value, else the default"). -/
def resolveFlag (arg : Option Bool) (dflt : Bool) : Bool :=
  arg == some true || (arg == Option.none && dflt)

/-- `_maybe_commit_or_flush_or_refresh_or_expunge`
(`_sync.py` lines 313-337): commit when the resolved `auto_commit` is
true, otherwise flush; then, when `db_object` is not `None`, refresh
each instance when the resolved `auto_refresh` is true and expunge each
when the resolved `auto_expunge` is true.  `objs` is `None` for a `None`
`db_object` and otherwise the object identities of the instance(s)
(a single object becomes a one-element list, a sequence is kept as is;
the scalar result of `count` is represented by the empty list, and its
call site hardwires both flags to `False`). -/
def maybePolicy (cfg : RepoConfig) (st : SessionState)
    (objs : Option (List Nat)) (autoCommit autoExpunge autoRefresh :
    Option Bool) : SessionState :=
  let st1 : SessionState :=
    if resolveFlag autoCommit cfg.autoCommit then
      { st with log := st.log ++ [.commit] }
    else
      { st with log := st.log ++ [.flush] }
  match objs with
  | Option.none => st1
  | some insts =>
      let st2 : SessionState :=
        if resolveFlag autoRefresh cfg.autoRefresh then
          { st1 with log := st1.log ++ insts.map .refresh }
        else
          st1
      if resolveFlag autoExpunge cfg.autoExpunge then
        { st2 with log := st2.log ++ insts.map .expunge }
      else
        st2

/-- A Python runtime error raised by this layer's code. -/
inductive PyError where
  | typeError
deriving DecidableEq

/-- Keyword binding of a call to `_prepare_statement`
(`_sync.py` lines 541-566 and `_base/_base.py` lines 84-109): the
keyword-only parameter `with_for_update: bool` has no default, so a call
that does not pass it raises `TypeError` before the body runs.  The body
applies loader options, execution options, and `with_for_update()` when
the flag is true (loader and execution options do not change the rows a
statement selects and are not tracked on the statement). -/
def callPrepareStatement (withForUpdateArg : Option Bool)
    (stmt : SelectStmt) : Except PyError SelectStmt :=
  match withForUpdateArg with
  | some b =>
      .ok (if b then { stmt with forUpdate := true } else stmt)
  | Option.none => .error .typeError

/-- `_add` (`_sync.py` lines 339-357): `db_session.add`, then the policy
with the added object. -/
def repoAdd (cfg : RepoConfig) (st : SessionState) (obj : DBObject)
    (ac ae ar : Option Bool) : DBObject × SessionState :=
  (obj, maybePolicy cfg (st.addObj obj) (some [obj.oid]) ac ae ar)

/-- `create` (`_sync.py` lines 116-131): delegate to `_add`. -/
def repoCreate (cfg : RepoConfig) (st : SessionState) (obj : DBObject)
    (ac ae ar : Option Bool) : DBObject × SessionState :=
  repoAdd cfg st obj ac ae ar

/-- `_get` (`_sync.py` lines 376-410): `db_session.get` by the model's
primary key (forwarding `with_for_update`), then the policy with
`auto_refresh=False`. -/
def repoGet (cfg : RepoConfig) (st : SessionState) (id : PValue)
    (ae : Option Bool) (wfu : Bool) (ac : Option Bool) :
    Option DBObject × SessionState :=
  let obj? := st.store.find? fun r => r.getAttr cfg.idField == some id
  let st1 := { st with log := st.log ++ [.get obj?.isSome wfu] }
  (obj?,
    maybePolicy cfg st1 (obj?.map fun o => [o.oid]) ac ae (some false))

/-- `read`'s default for `with_for_update` (`_sync.py` line 142). -/
def readDefaultWithForUpdate : Bool := false

/-- `update`'s default for `with_for_update` (`_sync.py` line 190). -/
def updateDefaultWithForUpdate : Bool := true

/-- `delete`'s default for `with_for_update` (`_sync.py` line 249). -/
def deleteDefaultWithForUpdate : Bool := false

/-- `read` (`_sync.py` lines 133-152): delegate to `_get`. -/
def repoRead (cfg : RepoConfig) (st : SessionState) (id : PValue)
    (ae ac : Option Bool) (wfu : Bool) :
    Option DBObject × SessionState :=
  repoGet cfg st id ae wfu ac

/-- `_update_db_object` (`_sync.py` lines 568-572): for each field of
`unpack_schema(object_in)` (explicitly-set fields), when the record has
the attribute, overwrite it. -/
def updateDBObjectFields (obj : DBObject) (objIn : InputSchema) :
    DBObject :=
  (unpackSchema objIn true []).foldl
    (fun o item =>
      if (o.getAttr item.1).isSome then o.setAttr item.1 item.2 else o)
    obj

/-- `update_db_object` (`_sync.py` lines 221-238): apply
`_update_db_object`, then `_add`. -/
def repoUpdateDBObject (cfg : RepoConfig) (st : SessionState)
    (obj : DBObject) (objIn : InputSchema) (ac ae ar : Option Bool) :
    DBObject × SessionState :=
  repoAdd cfg st (updateDBObjectFields obj objIn) ac ae ar

/-- `update` (`_sync.py` lines 179-219): `_get` with
`auto_expunge=False`, `auto_commit=False` and the forwarded
`with_for_update`; on a hit, `update_db_object`; on a miss, the policy on
`None` and return `None`. -/
def repoUpdate (cfg : RepoConfig) (st : SessionState) (id : PValue)
    (objIn : InputSchema) (ac ae ar : Option Bool) (wfu : Bool) :
    Option DBObject × SessionState :=
  let r := repoGet cfg st id (some false) wfu (some false)
  match r.1 with
  | some obj =>
      let r2 := repoUpdateDBObject cfg r.2 obj objIn ac ae ar
      (some r2.1, r2.2)
  | Option.none => (Option.none, maybePolicy cfg r.2 Option.none ac ae ar)

/-- `_delete` (`_sync.py` lines 359-374): `db_session.delete`, then the
policy with the deleted object and `auto_refresh=False`. -/
def repoDeleteDBObject (cfg : RepoConfig) (st : SessionState)
    (obj : DBObject) (ac ae : Option Bool) : SessionState :=
  maybePolicy cfg (st.deleteObjById obj.oid) (some [obj.oid]) ac ae
    (some false)

/-- `delete` (`_sync.py` lines 240-274): `_get` with
`auto_expunge=False`, `auto_commit=False` and the forwarded
`with_for_update`; on a hit, `delete_db_object`; on a miss, the policy on
`None` with `auto_refresh=False`. -/
def repoDelete (cfg : RepoConfig) (st : SessionState) (id : PValue)
    (ac ae : Option Bool) (wfu : Bool) : SessionState :=
  let r := repoGet cfg st id (some false) wfu (some false)
  match r.1 with
  | some obj => repoDeleteDBObject cfg r.2 obj ac ae
  | Option.none => maybePolicy cfg r.2 Option.none ac ae (some false)

/-- `_execute` + `_execute_returning_all` (`_sync.py` lines 412-456):
prepare the statement (passing `with_for_update` through), execute it,
collect all scalar results, then the policy with the result sequence. -/
def executeReturningAll (cfg : RepoConfig) (st : SessionState)
    (stmt : SelectStmt) (ac ae ar : Option Bool)
    (wfuArg : Option Bool) :
    Except PyError (List DBObject) × SessionState :=
  match callPrepareStatement wfuArg stmt with
  | .error e => (.error e, st)
  | .ok stmt' =>
      let objs := runSelect stmt' st.store
      let st1 := { st with log := st.log ++ [.executeStmt stmt'] }
      (.ok objs,
        maybePolicy cfg st1 (some (objs.map DBObject.oid)) ac ae ar)

/-- `read_multiple` (`_sync.py` lines 154-177): base select, filters,
pagination, then `_execute_returning_all` with `auto_refresh=False` and
the forwarded `with_for_update`. -/
def repoReadMultiple (cfg : RepoConfig) (st : SessionState)
    (filters : Option InputSchema) (ac ae : Option Bool) (wfu : Bool) :
    Except PyError (List DBObject) × SessionState :=
  let stmt :=
    addPagination (addFilters cfg.model SelectStmt.base filters) filters
  executeReturningAll cfg st stmt ac ae (some false) (some wfu)

/-- `_execute` + `_execute_returning_one` specialised to the count
statement (`_sync.py` lines 458-485 as called from `count`): prepare the
statement, execute, take the single scalar (the count), then the policy
(the scalar is not an ORM instance; `count` hardwires `auto_expunge` and
`auto_refresh` to `False`). -/
def executeReturningCount (cfg : RepoConfig) (st : SessionState)
    (stmt : SelectStmt) (ac ae ar : Option Bool)
    (wfuArg : Option Bool) : Except PyError Nat × SessionState :=
  match callPrepareStatement wfuArg stmt with
  | .error e => (.error e, st)
  | .ok stmt' =>
      let n := (st.store.filter (stmtHolds stmt')).length
      let st1 := { st with log := st.log ++ [.executeStmt stmt'] }
      (.ok n, maybePolicy cfg st1 (some []) ac ae ar)

/-- `count` (`_sync.py` lines 291-311): count select, filters (no
pagination), then `_execute_returning_one` with `auto_expunge=False`,
`auto_refresh=False`, `with_for_update=False`. -/
def repoCount (cfg : RepoConfig) (st : SessionState)
    (filters : Option InputSchema) (ac : Option Bool) :
    Except PyError Nat × SessionState :=
  let stmt := addFilters cfg.model SelectStmt.base filters
  executeReturningCount cfg st stmt ac (some false) (some false)
    (some false)

/-! ## The asynchronous family (`_asyncio.py`)

Each definition mirrors the corresponding coroutine of
`BaseAsyncRepository`; `await` suspension points have no observable
content in the embedding. -/

/-- `_maybe_commit_or_flush_or_refresh_or_expunge`
(`_asyncio.py` lines 314-338). -/
def asyncMaybePolicy (cfg : RepoConfig) (st : SessionState)
    (objs : Option (List Nat)) (autoCommit autoExpunge autoRefresh :
    Option Bool) : SessionState :=
  let st1 : SessionState :=
    if resolveFlag autoCommit cfg.autoCommit then
      { st with log := st.log ++ [.commit] }
    else
      { st with log := st.log ++ [.flush] }
  match objs with
  | Option.none => st1
  | some insts =>
      let st2 : SessionState :=
        if resolveFlag autoRefresh cfg.autoRefresh then
          { st1 with log := st1.log ++ insts.map .refresh }
        else
          st1
      if resolveFlag autoExpunge cfg.autoExpunge then
        { st2 with log := st2.log ++ insts.map .expunge }
      else
        st2

/-- `_prepare_statement` (`_asyncio.py` lines 550-575); unlike the
synchronous version its `with_for_update` parameter has the default
`False`, so a call without the argument succeeds. -/
def asyncCallPrepareStatement (withForUpdateArg : Option Bool)
    (stmt : SelectStmt) : Except PyError SelectStmt :=
  match withForUpdateArg with
  | some b =>
      .ok (if b then { stmt with forUpdate := true } else stmt)
  | Option.none => .ok stmt

/-- `_add` (`_asyncio.py` lines 340-358). -/
def asyncRepoAdd (cfg : RepoConfig) (st : SessionState) (obj : DBObject)
    (ac ae ar : Option Bool) : DBObject × SessionState :=
  (obj, asyncMaybePolicy cfg (st.addObj obj) (some [obj.oid]) ac ae ar)

/-- `create` (`_asyncio.py` lines 117-132). -/
def asyncRepoCreate (cfg : RepoConfig) (st : SessionState)
    (obj : DBObject) (ac ae ar : Option Bool) :
    DBObject × SessionState :=
  asyncRepoAdd cfg st obj ac ae ar

/-- `_get` (`_asyncio.py` lines 377-411). -/
def asyncRepoGet (cfg : RepoConfig) (st : SessionState) (id : PValue)
    (ae : Option Bool) (wfu : Bool) (ac : Option Bool) :
    Option DBObject × SessionState :=
  let obj? := st.store.find? fun r => r.getAttr cfg.idField == some id
  let st1 := { st with log := st.log ++ [.get obj?.isSome wfu] }
  (obj?,
    asyncMaybePolicy cfg st1 (obj?.map fun o => [o.oid]) ac ae
      (some false))

/-- `read` (`_asyncio.py` lines 134-153). -/
def asyncRepoRead (cfg : RepoConfig) (st : SessionState) (id : PValue)
    (ae ac : Option Bool) (wfu : Bool) :
    Option DBObject × SessionState :=
  asyncRepoGet cfg st id ae wfu ac

/-- `_update_db_object` (`_asyncio.py` lines 577-581, identical to the
synchronous one). -/
def asyncUpdateDBObjectFields (obj : DBObject) (objIn : InputSchema) :
    DBObject :=
  (unpackSchema objIn true []).foldl
    (fun o item =>
      if (o.getAttr item.1).isSome then o.setAttr item.1 item.2 else o)
    obj

/-- `update_db_object` (`_asyncio.py` lines 222-239). -/
def asyncRepoUpdateDBObject (cfg : RepoConfig) (st : SessionState)
    (obj : DBObject) (objIn : InputSchema) (ac ae ar : Option Bool) :
    DBObject × SessionState :=
  asyncRepoAdd cfg st (asyncUpdateDBObjectFields obj objIn) ac ae ar

/-- `update` (`_asyncio.py` lines 180-220). -/
def asyncRepoUpdate (cfg : RepoConfig) (st : SessionState) (id : PValue)
    (objIn : InputSchema) (ac ae ar : Option Bool) (wfu : Bool) :
    Option DBObject × SessionState :=
  let r := asyncRepoGet cfg st id (some false) wfu (some false)
  match r.1 with
  | some obj =>
      let r2 := asyncRepoUpdateDBObject cfg r.2 obj objIn ac ae ar
      (some r2.1, r2.2)
  | Option.none =>
      (Option.none, asyncMaybePolicy cfg r.2 Option.none ac ae ar)

/-- `_delete` (`_asyncio.py` lines 360-375). -/
def asyncRepoDeleteDBObject (cfg : RepoConfig) (st : SessionState)
    (obj : DBObject) (ac ae : Option Bool) : SessionState :=
  asyncMaybePolicy cfg (st.deleteObjById obj.oid) (some [obj.oid]) ac ae
    (some false)

/-- `delete` (`_asyncio.py` lines 241-275). -/
def asyncRepoDelete (cfg : RepoConfig) (st : SessionState) (id : PValue)
    (ac ae : Option Bool) (wfu : Bool) : SessionState :=
  let r := asyncRepoGet cfg st id (some false) wfu (some false)
  match r.1 with
  | some obj => asyncRepoDeleteDBObject cfg r.2 obj ac ae
  | Option.none =>
      asyncMaybePolicy cfg r.2 Option.none ac ae (some false)

/-- `_execute` + `_execute_returning_all` (`_asyncio.py` lines 413-461;
`is_scalar` defaults to `True`, so the scalars of the result are
collected with `.all()`). -/
def asyncExecuteReturningAll (cfg : RepoConfig) (st : SessionState)
    (stmt : SelectStmt) (ac ae ar : Option Bool)
    (wfuArg : Option Bool) :
    Except PyError (List DBObject) × SessionState :=
  match asyncCallPrepareStatement wfuArg stmt with
  | .error e => (.error e, st)
  | .ok stmt' =>
      let objs := runSelect stmt' st.store
      let st1 := { st with log := st.log ++ [.executeStmt stmt'] }
      (.ok objs,
        asyncMaybePolicy cfg st1 (some (objs.map DBObject.oid)) ac ae ar)

/-- `read_multiple` (`_asyncio.py` lines 155-178). -/
def asyncRepoReadMultiple (cfg : RepoConfig) (st : SessionState)
    (filters : Option InputSchema) (ac ae : Option Bool) (wfu : Bool) :
    Except PyError (List DBObject) × SessionState :=
  let stmt :=
    addPagination (addFilters cfg.model SelectStmt.base filters) filters
  asyncExecuteReturningAll cfg st stmt ac ae (some false) (some wfu)

/-- `_execute` + `_execute_returning_one` specialised to the count
statement (`_asyncio.py` lines 463-492; `res.one()` on the scalar
result). -/
def asyncExecuteReturningCount (cfg : RepoConfig) (st : SessionState)
    (stmt : SelectStmt) (ac ae ar : Option Bool)
    (wfuArg : Option Bool) : Except PyError Nat × SessionState :=
  match asyncCallPrepareStatement wfuArg stmt with
  | .error e => (.error e, st)
  | .ok stmt' =>
      let n := (st.store.filter (stmtHolds stmt')).length
      let st1 := { st with log := st.log ++ [.executeStmt stmt'] }
      (.ok n, asyncMaybePolicy cfg st1 (some []) ac ae ar)

/-- `count` (`_asyncio.py` lines 292-312). -/
def asyncRepoCount (cfg : RepoConfig) (st : SessionState)
    (filters : Option InputSchema) (ac : Option Bool) :
    Except PyError Nat × SessionState :=
  let stmt := addFilters cfg.model SelectStmt.base filters
  asyncExecuteReturningCount cfg st stmt ac (some false) (some false)
    (some false)

/-! ## The `repositories/sync` and `repositories/asyncio` family

`repositories/sync/_base.py` and `repositories/asyncio/_base.py` inherit
`_add_filters`, `_add_pagination` and `_prepare_statement` from
`repositories/_base/_base.py`.  The inherited `_prepare_statement`
(lines 84-109) has the keyword-only parameter `with_for_update: bool`
with no default, and `_execute_returning_all` / `_execute_returning_one`
of both subclasses call it without that argument. -/

/-- `_execute_returning_all` (`sync/_base.py` lines 284-309): the call
`self._prepare_statement(statement=..., loader_options=...,
execution_options=...)` omits the required keyword-only
`with_for_update`, so binding raises `TypeError` before the statement is
executed. -/
def oldExecuteReturningAll (cfg : RepoConfig) (st : SessionState)
    (stmt : SelectStmt) (ac ae ar : Option Bool) :
    Except PyError (List DBObject) × SessionState :=
  match callPrepareStatement Option.none stmt with
  | .error e => (.error e, st)
  | .ok stmt' =>
      let objs := runSelect stmt' st.store
      let st1 := { st with log := st.log ++ [.executeStmt stmt'] }
      (.ok objs,
        maybePolicy cfg st1 (some (objs.map DBObject.oid)) ac ae ar)

/-- `read_multiple` (`sync/_base.py` lines 54-75). -/
def oldRepoReadMultiple (cfg : RepoConfig) (st : SessionState)
    (filters : Option InputSchema) (ac ae : Option Bool) :
    Except PyError (List DBObject) × SessionState :=
  let stmt :=
    addPagination (addFilters cfg.model SelectStmt.base filters) filters
  oldExecuteReturningAll cfg st stmt ac ae (some false)

/-- `_execute_returning_one` (`sync/_base.py` lines 311-336) specialised
to the count statement; the `_prepare_statement` call again omits
`with_for_update`. -/
def oldExecuteReturningCount (cfg : RepoConfig) (st : SessionState)
    (stmt : SelectStmt) (ac ae ar : Option Bool) :
    Except PyError Nat × SessionState :=
  match callPrepareStatement Option.none stmt with
  | .error e => (.error e, st)
  | .ok stmt' =>
      let n := (st.store.filter (stmtHolds stmt')).length
      let st1 := { st with log := st.log ++ [.executeStmt stmt'] }
      (.ok n, maybePolicy cfg st1 (some []) ac ae ar)

/-- `count` (`sync/_base.py` lines 167-186). -/
def oldRepoCount (cfg : RepoConfig) (st : SessionState)
    (filters : Option InputSchema) (ac : Option Bool) :
    Except PyError Nat × SessionState :=
  let stmt := addFilters cfg.model SelectStmt.base filters
  oldExecuteReturningCount cfg st stmt ac (some false) (some false)

/-- `read_multiple` (`asyncio/_base.py` lines 54-75 with its
`_execute_returning_all`, lines 284-309): the same inherited
`_prepare_statement` is called without `with_for_update`. -/
def oldAsyncRepoReadMultiple (cfg : RepoConfig) (st : SessionState)
    (filters : Option InputSchema) (ac ae : Option Bool) :
    Except PyError (List DBObject) × SessionState :=
  let stmt :=
    addPagination (addFilters cfg.model SelectStmt.base filters) filters
  match callPrepareStatement Option.none stmt with
  | .error e => (.error e, st)
  | .ok stmt' =>
      let objs := runSelect stmt' st.store
      let st1 := { st with log := st.log ++ [.executeStmt stmt'] }
      (.ok objs,
        asyncMaybePolicy cfg st1 (some (objs.map DBObject.oid)) ac ae
          (some false))

/-- `count` (`asyncio/_base.py` lines 167-186 with its
`_execute_returning_one`, lines 311-336). -/
def oldAsyncRepoCount (cfg : RepoConfig) (st : SessionState)
    (filters : Option InputSchema) (ac : Option Bool) :
    Except PyError Nat × SessionState :=
  let stmt := addFilters cfg.model SelectStmt.base filters
  match callPrepareStatement Option.none stmt with
  | .error e => (.error e, st)
  | .ok stmt' =>
      let n := (st.store.filter (stmtHolds stmt')).length
      let st1 := { st with log := st.log ++ [.executeStmt stmt'] }
      (.ok n,
        asyncMaybePolicy cfg st1 (some []) ac (some false) (some false))

/-! ## Construction-time verification (`__init__`, `_verify_init`,
`_set_id_field`; `services/_sync.py` `__init__`, `_verify_init`) -/

/-- A setup error raised by this layer at construction time
(`MixemyRepositorySetupError` / `MixemyServiceSetupError`;
`mixemy._exceptions` is not under `src/`, the spec describes the two
kinds). -/
inductive MixemyError where
  | repositorySetup
  | serviceSetup
deriving DecidableEq

/-- A repository subclass as configured by its author: `model_type` is
annotation-only on the base class, so it is resolvable by attribute
lookup exactly when the subclass defines it; `id_attribute` has the base
default `"id"` (`_sync.py` line 76), so `none` (subclass leaves it
unset) resolves to `"id"`.  The `default_auto_*` class attributes carry
the base values unless overridden.  String-valued `id_attribute` only
(the `InstrumentedAttribute` alternative is not modelled). -/
structure RepoClass where
  modelType : Option ModelType
  idAttribute : Option String
  defaultAutoCommit : Bool := false
  defaultAutoRefresh : Bool := true
  defaultAutoExpunge : Bool := false
deriving DecidableEq

/-- `__init__` of `BaseSyncRepository` (`_sync.py` lines 84-114):
`_verify_init` checks `hasattr` for `model_type` and `id_attribute`
(the latter always resolves thanks to the base default), then
`_set_id_field` resolves the id attribute on the model (raising a
repository setup error when it is absent), then the three `auto_*`
arguments fall back to the class defaults when `None`. -/
def repoInit (c : RepoClass)
    (autoExpunge autoRefresh autoCommit : Option Bool) :
    Except MixemyError RepoConfig :=
  match c.modelType with
  | Option.none => .error .repositorySetup
  | some model =>
      let idName := c.idAttribute.getD "id"
      if model.attrs.contains idName then
        .ok { model := model, idField := idName,
              autoCommit := autoCommit.getD c.defaultAutoCommit,
              autoRefresh := autoRefresh.getD c.defaultAutoRefresh,
              autoExpunge := autoExpunge.getD c.defaultAutoExpunge }
      else
        .error .repositorySetup

/-- A service subclass as configured by its author: `repository_type`
and `output_schema_type` are annotation-only on the base class
(`services/_sync.py` lines 68-69), so each is resolvable exactly when
the subclass defines it.  The output schema type carries no structure
needed here. -/
structure ServiceClass where
  repositoryType : Option RepoClass
  outputSchemaType : Option Unit
deriving DecidableEq

/-- A service instance after `__init__`: its repository. -/
structure ServiceConfig where
  repository : RepoConfig
deriving DecidableEq

/-- `__init__` of `BaseSyncService` (`services/_sync.py` lines 76-103):
`_verify_init` checks `hasattr` for `output_schema_type` and
`repository_type` (lines 245-248), then `self.repository =
self.repository_type()` constructs the repository with no arguments
(whose `auto_*` signature defaults are the concrete booleans
`False`/`True`/`False`, `_sync.py` lines 89-91). -/
def serviceInit (s : ServiceClass) : Except MixemyError ServiceConfig :=
  match s.outputSchemaType, s.repositoryType with
  | Option.none, _ => .error .serviceSetup
  | _, Option.none => .error .serviceSetup
  | some _, some rc =>
      match repoInit rc (some false) (some true) (some false) with
      | .error e => .error e
      | .ok repo => .ok { repository := repo }

/-! ## The conversion utility and the service's call to it -/

/-- `to_model` (`utils/_convertors.py` lines 20-21):
`model(**unpack_schema(schema=schema))`.  The constructed record has the
model's attributes, each taking the unpacked value when present and
`None` otherwise; `oid` is the fresh object identity.  No recursive
handling of nested schema objects exists in this function. -/
def toModel (oid : Nat) (model : ModelType) (schema : InputSchema) :
    DBObject :=
  { oid := oid,
    attrs := model.attrs.map fun a =>
      (a, ((unpackSchema schema true []).lookup a).getD .none) }

/-- The parameters of `to_model` as defined in `utils/_convertors.py`
line 20: `model` and `schema`, no others, no defaults, no `**kwargs`. -/
def toModelParams : List String := ["model", "schema"]

/-- The keyword arguments `BaseSyncService._to_model` passes to
`to_model` (`services/_sync.py` lines 233-240). -/
def serviceToModelCallKwargs : List String :=
  ["schema", "model", "recursive_conversion", "exclude_unset",
   "exclude", "by_alias"]

/-- Python keyword binding for a call made with keyword arguments only:
every keyword must name a declared parameter (otherwise
`TypeError: unexpected keyword argument`) and every parameter without a
default must be bound (otherwise `TypeError: missing required
argument`). -/
def bindKwargs (params : List String) (args : List String) :
    Except PyError Unit :=
  if args.all params.contains && params.all args.contains then
    .ok ()
  else
    .error .typeError

/-- `_to_model` (`services/_sync.py` lines 214-240): resolve the four
conversion flags, then call `to_model` with six keyword arguments.  The
call is subject to keyword binding against `to_model`'s parameters. -/
def serviceToModel (oid : Nat) (svc : ServiceConfig)
    (schema : InputSchema) : Except PyError DBObject :=
  match bindKwargs toModelParams serviceToModelCallKwargs with
  | .error e => .error e
  | .ok _ => .ok (toModel oid svc.repository.model schema)

/-- `create` of `BaseSyncService` (`services/_sync.py` lines 105-121):
convert the input schema to a record via `_to_model`, then
`repository.create`; an exception from `_to_model` propagates before any
session effect. -/
def serviceCreate (oid : Nat) (svc : ServiceConfig) (st : SessionState)
    (schema : InputSchema) (ac ae ar : Option Bool) :
    Except PyError (DBObject × SessionState) :=
  match serviceToModel oid svc schema with
  | .error e => .error e
  | .ok obj => .ok (repoCreate svc.repository st obj ac ae ar)

/-! ## Helper definitions for the proofs -/

/-- The effect suffix appended by one application of the policy helper
(proved equal to what `maybePolicy` appends in `maybePolicy_log`). -/
def policyTrace (cfg : RepoConfig) (objs : Option (List Nat))
    (ac ae ar : Option Bool) : List Effect :=
  (if resolveFlag ac cfg.autoCommit then [.commit] else [.flush]) ++
    match objs with
    | Option.none => []
    | some l =>
        (if resolveFlag ar cfg.autoRefresh then l.map .refresh else []) ++
          (if resolveFlag ae cfg.autoExpunge then l.map .expunge else [])

/-! ## Concrete fixtures (mirroring `tests/test_sync.py`) -/

/-- The item model of the tests: attributes `id`, `value`,
`nullable_value`, primary key `id`. -/
def itemModel : ModelType :=
  { attrs := ["id", "value", "nullable_value"], pkAttr := "id" }

/-- An item repository with the base defaults
(`auto_commit=False`, `auto_refresh=True`, `auto_expunge=False`). -/
def itemRepo : RepoConfig :=
  { model := itemModel, idField := "id", autoCommit := false,
    autoRefresh := true, autoExpunge := false }

/-- A stored record with `id=1`, `value="x"`. -/
def recOne : DBObject :=
  { oid := 1,
    attrs := [("id", .int 1), ("value", .str "x"),
              ("nullable_value", .none)] }

/-- A stored record with `id=2`, `value="x"`. -/
def recTwo : DBObject :=
  { oid := 2,
    attrs := [("id", .int 2), ("value", .str "x"),
              ("nullable_value", .none)] }

/-- A session holding the two records. -/
def sessionTwo : SessionState := { store := [recOne, recTwo], log := [] }

/-- A pagination-capable filter matching `value="x"` with `offset=0`,
`limit=1`. -/
def pagFilterLimitOne : InputSchema :=
  { fields := [{ name := "value", value := .list [.str "x"],
                 isSet := true },
               { name := "offset", value := .int 0, isSet := true },
               { name := "limit", value := .int 1, isSet := true }],
    paginationCapable := true }

/-- A plain (non-pagination) filter matching `value ∈ {"x"}`, plus an
unknown field `bogus` that no model attribute matches. -/
def plainFilter : InputSchema :=
  { fields := [{ name := "value", value := .list [.str "x"],
                 isSet := true },
               { name := "bogus", value := .str "z", isSet := true }],
    paginationCapable := false }

/-- A partial update schema setting only `nullable_value` (plus an
unknown field), `value` left unset. -/
def partialUpdate : InputSchema :=
  { fields := [{ name := "nullable_value", value := .str "n",
                 isSet := true },
               { name := "value", value := .str "ignored",
                 isSet := false },
               { name := "unknown_field", value := .str "u",
                 isSet := true }],
    paginationCapable := false }

/-- The recursive-conversion input of
`tests/test_sync.py::test_recursive_model`: a nested list with two
sub-objects and one singular sub-object. -/
def recursiveTestInput : InputSchema :=
  { fields :=
      [{ name := "sub_items",
         value := .list [.obj [("value", .str "sub_item_one")],
                         .obj [("value", .str "sub_item_two")]],
         isSet := true },
       { name := "singular_sub_item",
         value := .obj [("value", .str "singular_sub_item")],
         isSet := true }],
    paginationCapable := false }

/-- A service over the item repository. -/
def itemService : ServiceConfig := { repository := itemRepo }

/-- A repository subclass defining neither `model_type` nor
`id_attribute`. -/
def brokenRepoClass : RepoClass :=
  { modelType := Option.none, idAttribute := Option.none }

/-- A well-formed repository subclass for the item model. -/
def itemRepoClass : RepoClass :=
  { modelType := some itemModel, idAttribute := Option.none }

/-- A service subclass with both required attributes defined, whose
repository class is itself misconfigured. -/
def serviceWithBrokenRepo : ServiceClass :=
  { repositoryType := some brokenRepoClass, outputSchemaType := some () }

/-- A fully well-formed service subclass. -/
def goodServiceClass : ServiceClass :=
  { repositoryType := some itemRepoClass, outputSchemaType := some () }

/-! ## Theorems -/

/-- The policy helper does not touch the store. -/
theorem maybePolicy_store (cfg : RepoConfig) (st : SessionState)
    (objs : Option (List Nat)) (ac ae ar : Option Bool) :
    (maybePolicy cfg st objs ac ae ar).store = st.store := by
  unfold maybePolicy
  cases objs <;> dsimp only <;> split <;> try split
  all_goals first | rfl | (split <;> rfl)

/-- The policy helper appends exactly `policyTrace` to the log. -/
theorem maybePolicy_log (cfg : RepoConfig) (st : SessionState)
    (objs : Option (List Nat)) (ac ae ar : Option Bool) :
    (maybePolicy cfg st objs ac ae ar).log =
      st.log ++ policyTrace cfg objs ac ae ar := by
  unfold maybePolicy policyTrace
  cases objs <;> dsimp only <;> split_ifs <;>
    simp [List.append_assoc]

/-- Claim C7: in the repository family under `repositories/sync` and
`repositories/asyncio`, every call to `read_multiple` or `count` raises
a `TypeError` before any query is executed, because
`_execute_returning_all` and `_execute_returning_one` invoke the
inherited `_prepare_statement` without its required keyword-only
argument `with_for_update`.  The session state (store and effect trace)
is returned unchanged: in particular no `executeStmt` effect occurs. -/
theorem old_family_read_multiple_count_raise_type_error
    (cfg : RepoConfig) (st : SessionState) (filters : Option InputSchema)
    (ac ae : Option Bool) :
    oldRepoReadMultiple cfg st filters ac ae = (.error .typeError, st) ∧
    oldRepoCount cfg st filters ac = (.error .typeError, st) ∧
    oldAsyncRepoReadMultiple cfg st filters ac ae =
      (.error .typeError, st) ∧
    oldAsyncRepoCount cfg st filters ac = (.error .typeError, st) :=
  ⟨rfl, rfl, rfl, rfl⟩

/-- Claim C9: for every operation (`create`, `read`, `read_multiple`,
`update`, `delete`, `count`) and every input, the synchronous repository
(`_sync.py`) and its asynchronous counterpart (`_asyncio.py`) perform
the same sequence of session effects and return the same result; in the
embedding (where suspension points are invisible) the two families are
extensionally equal. -/
theorem sync_async_families_equivalent (cfg : RepoConfig)
    (st : SessionState) (obj : DBObject) (id : PValue)
    (objIn : InputSchema) (filters : Option InputSchema)
    (ac ae ar : Option Bool) (wfu : Bool) :
    repoCreate cfg st obj ac ae ar = asyncRepoCreate cfg st obj ac ae ar ∧
    repoRead cfg st id ae ac wfu = asyncRepoRead cfg st id ae ac wfu ∧
    repoReadMultiple cfg st filters ac ae wfu =
      asyncRepoReadMultiple cfg st filters ac ae wfu ∧
    repoUpdate cfg st id objIn ac ae ar wfu =
      asyncRepoUpdate cfg st id objIn ac ae ar wfu ∧
    repoDelete cfg st id ac ae wfu = asyncRepoDelete cfg st id ac ae wfu ∧
    repoCount cfg st filters ac = asyncRepoCount cfg st filters ac :=
  ⟨rfl, rfl, rfl, rfl, rfl, rfl⟩

/-- Claim C8 (evaluation at the failing input): with recursive
conversion enabled, `BaseSyncService.create` on the nested input of
`tests/test_sync.py::test_recursive_model` raises `TypeError` before any
session effect, because `_to_model` passes the keyword arguments
`recursive_conversion`, `exclude_unset`, `exclude` and `by_alias` to
`to_model`, whose only parameters are `model` and `schema` — the claimed
record-graph construction and round-trip never happen. -/
theorem service_create_recursive_input_raises_type_error :
    serviceToModel 3 itemService recursiveTestInput =
      .error .typeError ∧
    serviceCreate 3 itemService sessionTwo recursiveTestInput
      Option.none Option.none Option.none = .error .typeError :=
  ⟨rfl, rfl⟩

/-- Claim C5 (counterexample): `delete` does not request row-level
locking by default — its `with_for_update` default is `False`
(`_sync.py` line 249), so the lookup inside a default `delete` call is
issued without the row-lock option. -/
theorem delete_default_lookup_is_unlocked :
    deleteDefaultWithForUpdate = false ∧
    (repoDelete itemRepo sessionTwo (.int 1) Option.none Option.none
        deleteDefaultWithForUpdate).log.head? =
      some (.get true false) ∧
    Effect.get true true ∉
      (repoDelete itemRepo sessionTwo (.int 1) Option.none Option.none
        deleteDefaultWithForUpdate).log := by
  refine ⟨rfl, rfl, ?_⟩
  decide

/-- Claim C5 (amended): `update` requests row-level locking by default
on the read that precedes its mutation (`with_for_update` defaults to
`True`, `_sync.py` line 190), while `delete` does not (its default is
`False`, line 249): with the defaults, the lookup inside `update` is
issued with the row-lock option enabled and the lookup inside `delete`
without it. -/
theorem update_locks_by_default_delete_does_not (cfg : RepoConfig)
    (st : SessionState) (id : PValue) (objIn : InputSchema)
    (ac ae ar : Option Bool) :
    updateDefaultWithForUpdate = true ∧
    deleteDefaultWithForUpdate = false ∧
    ((repoUpdate cfg st id objIn ac ae ar
        updateDefaultWithForUpdate).2.log.drop st.log.length).head? =
      some (.get
        (st.store.find? fun r => r.getAttr cfg.idField == some id).isSome
        true) ∧
    ((repoDelete cfg st id ac ae
        deleteDefaultWithForUpdate).log.drop st.log.length).head? =
      some (.get
        (st.store.find? fun r => r.getAttr cfg.idField == some id).isSome
        false) := by
  refine ⟨rfl, rfl, ?_, ?_⟩
  · simp only [repoUpdate, repoGet]
    cases hfind :
        st.store.find? fun r => r.getAttr cfg.idField == some id <;>
      simp [hfind, repoUpdateDBObject, repoAdd, SessionState.addObj,
        maybePolicy_log, maybePolicy_store, List.append_assoc,
        List.drop_left, updateDefaultWithForUpdate]
  · simp only [repoDelete, repoGet]
    cases hfind :
        st.store.find? fun r => r.getAttr cfg.idField == some id <;>
      simp [hfind, repoDeleteDBObject, SessionState.deleteObjById,
        maybePolicy_log, maybePolicy_store, List.append_assoc,
        List.drop_left, deleteDefaultWithForUpdate]

/-- `repoInit` never raises a service setup error. -/
theorem repoInit_ne_serviceSetup (c : RepoClass)
    (ax ar ac : Option Bool) :
    repoInit c ax ar ac ≠ .error .serviceSetup := by
  unfold repoInit
  split
  · simp
  · dsimp only
    split <;> simp

/-- Claim C10 (counterexample): constructing a service whose
`repository_type` and `output_schema_type` are both defined can still
raise an error from this layer — `__init__` instantiates the repository
type, so a repository setup error propagates when that class is itself
misconfigured (here: `model_type` undefined on the repository class). -/
theorem service_init_propagates_repository_setup_error :
    serviceInit serviceWithBrokenRepo = .error .repositorySetup ∧
    serviceWithBrokenRepo.repositoryType ≠ Option.none ∧
    serviceWithBrokenRepo.outputSchemaType ≠ Option.none ∧
    MixemyError.repositorySetup ≠ MixemyError.serviceSetup := by
  refine ⟨rfl, ?_, ?_, ?_⟩ <;> decide

/-- Claim C10 (amended): constructing a repository raises a repository
setup error exactly when `model_type` is not resolvable by attribute
lookup or the resolved primary-key attribute name (`id_attribute`, base
default `"id"`) is not an attribute of the model; constructing a service
raises a service setup error exactly when `repository_type` or
`output_schema_type` is not resolvable; and when both are defined,
service construction instantiates the repository type, so a repository
setup error from a misconfigured repository class propagates — no other
error arises from this layer. -/
theorem setup_errors_exactly_characterized (c : RepoClass)
    (ax ar ac : Option Bool) (s : ServiceClass) :
    ((∃ r, repoInit c ax ar ac = .ok r) ↔
      ∃ m, c.modelType = some m ∧
        (c.idAttribute.getD "id") ∈ m.attrs) ∧
    ((repoInit c ax ar ac = .error .repositorySetup) ↔
      ¬∃ m, c.modelType = some m ∧
        (c.idAttribute.getD "id") ∈ m.attrs) ∧
    ((serviceInit s = .error .serviceSetup) ↔
      (s.outputSchemaType = Option.none ∨
        s.repositoryType = Option.none)) ∧
    (∀ rc u, s.repositoryType = some rc → s.outputSchemaType = some u →
      serviceInit s =
        (repoInit rc (some false) (some true) (some false)).map
          fun repo => { repository := repo }) := by
  refine ⟨?_, ?_, ?_, ?_⟩
  · unfold repoInit
    split
    · simp_all
    · dsimp only
      split <;> simp_all
  · unfold repoInit
    split
    · simp_all
    · dsimp only
      split <;> simp_all
  · unfold serviceInit
    cases ho : s.outputSchemaType with
    | none => simp
    | some u =>
        cases hr : s.repositoryType with
        | none => simp
        | some rc =>
            cases hini : repoInit rc (some false) (some true) (some false) with
            | error e =>
                cases e with
                | repositorySetup => simp [hini]
                | serviceSetup =>
                    exact absurd hini (repoInit_ne_serviceSetup rc _ _ _)
            | ok r => simp [hini]
  · intro rc u hrc hu
    unfold serviceInit
    rw [hrc, hu]
    cases hini : repoInit rc (some false) (some true) (some false) <;>
      simp [hini, Except.map]

/-- Claim C2: for every id that no stored record carries, `read` returns
`None`, `update` returns `None` without modifying any stored record, and
`delete` completes without removing anything; all three are total
functions of the state in the embedding — no error is raised for the
missing key. -/
theorem missing_id_operations_return_absence (cfg : RepoConfig)
    (st : SessionState) (id : PValue) (objIn : InputSchema)
    (ac ae ar : Option Bool) (wfuR wfuU wfuD : Bool)
    (h : ∀ r ∈ st.store, ¬r.getAttr cfg.idField = some id) :
    (repoRead cfg st id ae ac wfuR).1 = Option.none ∧
    (repoRead cfg st id ae ac wfuR).2.store = st.store ∧
    (repoUpdate cfg st id objIn ac ae ar wfuU).1 = Option.none ∧
    (repoUpdate cfg st id objIn ac ae ar wfuU).2.store = st.store ∧
    (repoDelete cfg st id ac ae wfuD).store = st.store := by
  have hfind :
      (st.store.find? fun r => r.getAttr cfg.idField == some id) =
        Option.none := by
    rw [List.find?_eq_none]
    intro x hx
    simpa using h x hx
  refine ⟨?_, ?_, ?_, ?_, ?_⟩ <;>
    simp [repoRead, repoGet, repoUpdate, repoDelete, hfind,
      maybePolicy_store]

/-- Witness for `missing_id_operations_return_absence`: no record of the
two-record session has id 5, and the three operations behave as stated
there. -/
theorem missing_id_operations_return_absence_witness :
    (∀ r ∈ sessionTwo.store,
      ¬r.getAttr itemRepo.idField = some (.int 5)) ∧
    ((repoRead itemRepo sessionTwo (.int 5) Option.none (some false)
        false).1 = Option.none ∧
     (repoRead itemRepo sessionTwo (.int 5) Option.none (some false)
        false).2.store = sessionTwo.store ∧
     (repoUpdate itemRepo sessionTwo (.int 5) partialUpdate Option.none
        Option.none Option.none true).1 = Option.none ∧
     (repoUpdate itemRepo sessionTwo (.int 5) partialUpdate Option.none
        Option.none Option.none true).2.store = sessionTwo.store ∧
     (repoDelete itemRepo sessionTwo (.int 5) Option.none Option.none
        false).store = sessionTwo.store) :=
  ⟨by decide,
   missing_id_operations_return_absence itemRepo sessionTwo (.int 5)
     partialUpdate Option.none Option.none Option.none false true false
     (by decide)⟩

/-- The three-valued resolution is true exactly when the per-call flag
is an explicit `True`, or is unset (`None`) and the repository default
is true. -/
theorem resolveFlag_iff (x : Option Bool) (d : Bool) :
    resolveFlag x d = true ↔
      (x = some true ∨ (x = Option.none ∧ d = true)) := by
  cases x with
  | none => cases d <;> decide
  | some b => cases b <;> cases d <;> decide

/-- Claim C6: each application of the post-operation policy
(`_maybe_commit_or_flush_or_refresh_or_expunge`, invoked by every
operation) performs exactly one of commit or flush — commit exactly when
the per-call `auto_commit` is an explicit `True` or is unset and the
repository default is true, flush otherwise; then, only when the
returned object(s) are non-absent, it refreshes exactly the returned
instances when the resolved `auto_refresh` is true and expunges exactly
them when the resolved `auto_expunge` is true, each flag resolved by
explicit-override-else-default. -/
theorem policy_commits_xor_flushes_then_refreshes_expunges
    (cfg : RepoConfig) (st : SessionState) (objs : Option (List Nat))
    (ac ae ar : Option Bool) :
    (((maybePolicy cfg st objs ac ae ar).log.drop st.log.length).countP
        (fun e => e == Effect.commit || e == Effect.flush)) = 1 ∧
    (Effect.commit ∈
        (maybePolicy cfg st objs ac ae ar).log.drop st.log.length ↔
      (ac = some true ∨ (ac = Option.none ∧ cfg.autoCommit = true))) ∧
    (Effect.flush ∈
        (maybePolicy cfg st objs ac ae ar).log.drop st.log.length ↔
      ¬(ac = some true ∨ (ac = Option.none ∧ cfg.autoCommit = true))) ∧
    (∀ oid, Effect.refresh oid ∈
        (maybePolicy cfg st objs ac ae ar).log.drop st.log.length ↔
      ((∃ l, objs = some l ∧ oid ∈ l) ∧
        (ar = some true ∨ (ar = Option.none ∧ cfg.autoRefresh = true)))) ∧
    (∀ oid, Effect.expunge oid ∈
        (maybePolicy cfg st objs ac ae ar).log.drop st.log.length ↔
      ((∃ l, objs = some l ∧ oid ∈ l) ∧
        (ae = some true ∨ (ae = Option.none ∧ cfg.autoExpunge = true)))) := by
  have hsuf :
      (maybePolicy cfg st objs ac ae ar).log.drop st.log.length =
        policyTrace cfg objs ac ae ar := by
    rw [maybePolicy_log]
    exact List.drop_left _ _
  rw [hsuf]
  unfold policyTrace
  cases objs with
  | none =>
      split_ifs with hcf <;>
        refine ⟨?_, ?_, ?_, ?_, ?_⟩ <;>
          simp_all [← resolveFlag_iff]
  | some l =>
      split_ifs with hcf hr hx <;>
        refine ⟨?_, ?_, ?_, ?_, ?_⟩ <;>
          simp_all [← resolveFlag_iff, List.countP_append,
            List.countP_map, Function.comp_def]

/-- Witness for `policy_commits_xor_flushes_then_refreshes_expunges` at
a concrete configuration: default repository, two returned instances,
explicit `auto_commit=True`, flags unset. -/
theorem policy_commits_xor_flushes_witness :
    (((maybePolicy itemRepo sessionTwo (some [1, 2]) (some true)
        Option.none Option.none).log.drop sessionTwo.log.length).countP
        (fun e => e == Effect.commit || e == Effect.flush)) = 1 ∧
    (Effect.commit ∈
        (maybePolicy itemRepo sessionTwo (some [1, 2]) (some true)
          Option.none Option.none).log.drop sessionTwo.log.length ↔
      (some true = some true ∨
        (some true = Option.none ∧ itemRepo.autoCommit = true))) ∧
    (Effect.flush ∈
        (maybePolicy itemRepo sessionTwo (some [1, 2]) (some true)
          Option.none Option.none).log.drop sessionTwo.log.length ↔
      ¬(some true = some true ∨
        (some true = Option.none ∧ itemRepo.autoCommit = true))) ∧
    (∀ oid, Effect.refresh oid ∈
        (maybePolicy itemRepo sessionTwo (some [1, 2]) (some true)
          Option.none Option.none).log.drop sessionTwo.log.length ↔
      ((∃ l, (some [1, 2] : Option (List Nat)) = some l ∧ oid ∈ l) ∧
        ((Option.none : Option Bool) = some true ∨
          ((Option.none : Option Bool) = Option.none ∧
            itemRepo.autoRefresh = true)))) ∧
    (∀ oid, Effect.expunge oid ∈
        (maybePolicy itemRepo sessionTwo (some [1, 2]) (some true)
          Option.none Option.none).log.drop sessionTwo.log.length ↔
      ((∃ l, (some [1, 2] : Option (List Nat)) = some l ∧ oid ∈ l) ∧
        ((Option.none : Option Bool) = some true ∨
          ((Option.none : Option Bool) = Option.none ∧
            itemRepo.autoExpunge = true)))) :=
  policy_commits_xor_flushes_then_refreshes_expunges itemRepo sessionTwo
    (some [1, 2]) (some true) Option.none Option.none

/-- `List.lookup` through the attribute replacement performed by
`setAttr`. -/
theorem lookup_setAttr_map (l : List (String × PValue)) (n a : String)
    (v : PValue) :
    (l.map fun p => if p.1 = n then (p.1, v) else p).lookup a =
      if a = n then (l.lookup a).map (fun _ => v) else l.lookup a := by
  induction l with
  | nil => simp [List.lookup]
  | cons p rest ih =>
      obtain ⟨k, w⟩ := p
      have hhead :
          ((k, w) :: rest).map (fun p => if p.1 = n then (p.1, v) else p) =
            (k, if k = n then v else w) ::
              rest.map (fun p => if p.1 = n then (p.1, v) else p) := by
        by_cases hk : k = n <;> simp [hk]
      rw [hhead]
      by_cases h1 : a = k
      · subst h1
        have hbeq : (a == a) = true := beq_self_eq_true a
        by_cases h2 : a = n
        · subst h2
          simp [List.lookup, hbeq]
        · simp [List.lookup, hbeq, h2]
      · have hbeq : (a == k) = false := beq_eq_false_iff_ne.mpr h1
        simp [List.lookup, hbeq, ih]

/-- `getAttr` after `setAttr`: the named attribute is overwritten when
present, everything else unchanged. -/
theorem getAttr_setAttr (obj : DBObject) (n a : String) (v : PValue) :
    (obj.setAttr n v).getAttr a =
      if a = n then (obj.getAttr a).map (fun _ => v)
      else obj.getAttr a := by
  unfold DBObject.setAttr DBObject.getAttr
  exact lookup_setAttr_map obj.attrs n a v

/-- A key absent from the key list has no binding. -/
theorem lookup_eq_none_of_not_mem_keys (l : List (String × PValue))
    (a : String) (h : a ∉ l.map Prod.fst) :
    l.lookup a = Option.none := by
  induction l with
  | nil => simp [List.lookup]
  | cons p rest ih =>
      obtain ⟨k, w⟩ := p
      simp only [List.map_cons, List.mem_cons, not_or] at h
      have hbeq : (a == k) = false := beq_eq_false_iff_ne.mpr h.1
      simp [List.lookup, hbeq, ih h.2]

/-- The attribute view of the fold performed by `_update_db_object`:
with duplicate-free keys, attribute `a` ends at the folded value when
the items bind `a` and the record has the attribute, and stays unchanged
otherwise. -/
theorem foldl_update_getAttr (items : List (String × PValue))
    (obj : DBObject) (a : String)
    (hnd : (items.map Prod.fst).Nodup) :
    (items.foldl
        (fun o item =>
          if (o.getAttr item.1).isSome then o.setAttr item.1 item.2
          else o)
        obj).getAttr a =
      match items.lookup a with
      | some v => (obj.getAttr a).map fun _ => v
      | Option.none => obj.getAttr a := by
  induction items generalizing obj with
  | nil => simp [List.lookup]
  | cons item rest ih =>
      obtain ⟨n, v⟩ := item
      simp only [List.map_cons, List.nodup_cons] at hnd
      obtain ⟨hn, hnd'⟩ := hnd
      have hstep : ∀ b,
          ((if (obj.getAttr n).isSome then obj.setAttr n v
            else obj).getAttr b) =
            if b = n then (obj.getAttr b).map (fun _ => v)
            else obj.getAttr b := by
        intro b
        by_cases hb : b = n
        · subst hb
          cases hob : obj.getAttr b with
          | none => simp [hob]
          | some w => simp [hob, getAttr_setAttr]
        · by_cases hsome : (obj.getAttr n).isSome
          · simp [hsome, getAttr_setAttr, hb]
          · simp [hsome, hb]
      rw [List.foldl_cons, ih _ hnd']
      by_cases ha : a = n
      · subst ha
        rw [lookup_eq_none_of_not_mem_keys rest a hn]
        simp [hstep, List.lookup]
      · have hbeq : (a == n) = false := beq_eq_false_iff_ne.mpr ha
        cases hra : rest.lookup a <;>
          simp [hstep, ha, hra, hbeq, List.lookup]

/-- `unpack_schema` with the default arguments keeps exactly the
explicitly-set fields. -/
theorem unpackSchema_noexclude (s : InputSchema) :
    unpackSchema s true [] =
      s.fields.filterMap fun f =>
        if f.isSet then some (f.name, f.value) else Option.none := by
  unfold unpackSchema
  apply List.filterMap_congr
  intro f _
  cases f.isSet <;> simp

/-- The binding for `a` among the explicitly-set fields is the value of
the first set field named `a`. -/
theorem lookup_filterMap_set (fs : List SchemaField) (a : String) :
    (fs.filterMap fun f =>
        if f.isSet then some (f.name, f.value) else Option.none).lookup
        a =
      (fs.find? fun f => f.name == a && f.isSet).map
        SchemaField.value := by
  induction fs with
  | nil => simp [List.lookup]
  | cons f rest ih =>
      cases hset : f.isSet with
      | false => simp [hset, List.find?_cons, ih]
      | true =>
          by_cases ha : f.name = a
          · simp [hset, ha, List.lookup, List.find?_cons]
          · have hbeq : (a == f.name) = false :=
              beq_eq_false_iff_ne.mpr (Ne.symm ha)
            simp [hset, ha, hbeq, List.lookup, List.find?_cons, ih]

/-- The keys of the unpacked schema are duplicate-free when the schema's
field names are. -/
theorem unpack_keys_nodup (s : InputSchema)
    (h : (s.fields.map SchemaField.name).Nodup) :
    ((unpackSchema s true []).map Prod.fst).Nodup := by
  rw [unpackSchema_noexclude]
  have hkeys :
      ((s.fields.filterMap fun f =>
          if f.isSet then some (f.name, f.value)
          else Option.none).map Prod.fst) =
        (s.fields.filter (fun f => f.isSet)).map SchemaField.name := by
    induction s.fields with
    | nil => simp
    | cons f rest ih => cases hset : f.isSet <;> simp [hset, ih]
  rw [hkeys]
  exact ((List.filter_sublist _).map _).nodup h

/-- Claim C3: for every record and partial update input with
duplicate-free field names (pydantic schemas have unique fields),
`_update_db_object` overwrites exactly the attributes named by an
explicitly-set input field that the record possesses — such an attribute
takes the input value — and every other attribute (unset input fields,
fields absent from the record, record attributes not named) keeps its
prior value; the record identity is unchanged. -/
theorem update_overwrites_exactly_explicitly_set_fields
    (obj : DBObject) (objIn : InputSchema)
    (hnd : (objIn.fields.map SchemaField.name).Nodup) (a : String) :
    (updateDBObjectFields obj objIn).oid = obj.oid ∧
    (updateDBObjectFields obj objIn).getAttr a =
      match objIn.fields.find? fun f => f.name == a && f.isSet with
      | some f => (obj.getAttr a).map fun _ => f.value
      | Option.none => obj.getAttr a := by
  constructor
  · unfold updateDBObjectFields
    generalize unpackSchema objIn true [] = items
    induction items generalizing obj with
    | nil => rfl
    | cons i rest ih =>
        rw [List.foldl_cons, ih]
        split <;> rfl
  · unfold updateDBObjectFields
    rw [foldl_update_getAttr _ _ _ (unpack_keys_nodup objIn hnd),
      unpackSchema_noexclude, lookup_filterMap_set]
    cases h : objIn.fields.find? fun f => f.name == a && f.isSet <;>
      simp [h]

/-- Witness for `update_overwrites_exactly_explicitly_set_fields`: the
partial update applied to the stored record at the explicitly-set
attribute `nullable_value`. -/
theorem update_overwrites_witness :
    (partialUpdate.fields.map SchemaField.name).Nodup ∧
    ((updateDBObjectFields recOne partialUpdate).oid = recOne.oid ∧
     (updateDBObjectFields recOne partialUpdate).getAttr
        "nullable_value" =
       match partialUpdate.fields.find? fun f =>
           f.name == "nullable_value" && f.isSet with
       | some f =>
           (recOne.getAttr "nullable_value").map fun _ => f.value
       | Option.none => recOne.getAttr "nullable_value") :=
  ⟨by decide,
   update_overwrites_exactly_explicitly_set_fields recOne partialUpdate
     (by decide) "nullable_value"⟩

/-- `_add_filters` only appends where-clauses: one per unpacked filter
item accepted by `mkFilterPred`; offset, limit and the lock flag are
untouched. -/
theorem addFilters_some (model : ModelType) (stmt : SelectStmt)
    (f : InputSchema) :
    addFilters model stmt (some f) =
      { stmt with
        preds := stmt.preds ++
          (unpackSchema f true PaginationFields).filterMap
            (mkFilterPred model) } := by
  unfold addFilters
  dsimp only
  generalize unpackSchema f true PaginationFields = items
  induction items generalizing stmt with
  | nil => simp
  | cons i rest ih =>
      rw [List.foldl_cons]
      cases hp : mkFilterPred model i with
      | none => rw [ih]; simp [hp]
      | some p => rw [ih]; simp [hp, List.append_assoc]

/-- `all` through a `filterMap`: dropped elements are vacuously fine. -/
theorem all_filterMap {α β : Type} (l : List α) (g : α → Option β)
    (p : β → Bool) :
    (l.filterMap g).all p = l.all fun x => (g x).elim true p := by
  induction l with
  | nil => rfl
  | cons x rest ih => cases hg : g x <;> simp [hg, ih]

/-- A record satisfies the statement built by `_add_filters` exactly
when, for every field of the filter schema, either the field is not
explicitly set, or its name is a pagination field, or its name is not an
attribute of the model (unknown fields constrain nothing), or the
record's attribute passes the membership test (list value) or equality
test (other value). -/
theorem stmtHolds_addFilters_iff (model : ModelType) (f : InputSchema)
    (r : DBObject) :
    stmtHolds (addFilters model SelectStmt.base (some f)) r =
      f.fields.all fun sf =>
        !sf.isSet || PaginationFields.contains sf.name ||
        !model.attrs.contains sf.name ||
        (match sf.value with
         | .list vs =>
             match r.getAttr sf.name with
             | some x => vs.contains x
             | Option.none => false
         | v => r.getAttr sf.name == some v) := by
  unfold stmtHolds
  rw [addFilters_some]
  simp only [SelectStmt.base, List.nil_append]
  rw [all_filterMap]
  unfold unpackSchema
  rw [all_filterMap]
  congr 1
  funext sf
  by_cases hset : sf.isSet
  · by_cases hpag : sf.name ∈ PaginationFields
    · simp [hset, hpag]
    · by_cases hattr : sf.name ∈ model.attrs
      · cases hv : sf.value <;>
          cases hga : r.getAttr sf.name <;>
            simp [hset, hpag, hattr, hv, hga, mkFilterPred, predHolds]
      · cases hv : sf.value <;>
          simp [hset, hpag, hattr, hv, mkFilterPred]
  · simp [hset]

/-- `stmtHolds` of a statement literal depends only on the
where-clauses. -/
theorem stmtHolds_mk (P : List Pred) (o l : Option Nat) (u : Bool) :
    stmtHolds { preds := P, offset := o, limit := l, forUpdate := u } =
      fun r => P.all (predHolds r) :=
  rfl

/-- Claim C1 (counterexample): with a pagination-capable filter whose
limit truncates, `read_multiple` does not return all records satisfying
the filter predicates — one matching record is returned while two
satisfy every predicate. -/
theorem read_multiple_pagination_narrows_beyond_predicates :
    (repoReadMultiple itemRepo sessionTwo (some pagFilterLimitOne)
        Option.none Option.none false).1 = .ok [recOne] ∧
    sessionTwo.store.filter
        (stmtHolds
          (addFilters itemRepo.model SelectStmt.base
            (some pagFilterLimitOne))) = [recOne, recTwo] ∧
    ([recOne] : List DBObject) ≠ [recOne, recTwo] := by
  refine ⟨rfl, rfl, ?_⟩
  decide

/-- Claim C1 (amended): for every filter object, `_add_filters` adds a
predicate only for explicitly-set non-pagination fields whose name is an
attribute of the record type — membership for list values, equality
otherwise, unknown fields adding nothing (so they never narrow the
result) — and the records returned by `read_multiple` are exactly those
satisfying every such predicate restricted to the pagination window
(offset/limit) when the filter is pagination-capable, and exactly those
satisfying every such predicate otherwise; `count` counts exactly the
satisfying records. -/
theorem read_multiple_count_return_exactly_matching (cfg : RepoConfig)
    (st : SessionState) (f : InputSchema) (ac ae : Option Bool)
    (wfu : Bool) :
    (∀ r : DBObject,
      stmtHolds (addFilters cfg.model SelectStmt.base (some f)) r =
        f.fields.all fun sf =>
          !sf.isSet || PaginationFields.contains sf.name ||
          !cfg.model.attrs.contains sf.name ||
          (match sf.value with
           | .list vs =>
               match r.getAttr sf.name with
               | some x => vs.contains x
               | Option.none => false
           | v => r.getAttr sf.name == some v)) ∧
    (repoReadMultiple cfg st (some f) ac ae wfu).1 =
      .ok (if f.paginationCapable then
             applyLimit f.limitVal
               ((st.store.filter
                  (stmtHolds
                    (addFilters cfg.model SelectStmt.base
                      (some f)))).drop f.offsetVal)
           else
             st.store.filter
               (stmtHolds
                 (addFilters cfg.model SelectStmt.base (some f)))) ∧
    (repoCount cfg st (some f) ac).1 =
      .ok (st.store.filter
            (stmtHolds
              (addFilters cfg.model SelectStmt.base (some f)))).length := by
  refine ⟨stmtHolds_addFilters_iff cfg.model f, ?_, ?_⟩
  · cases hcap : f.paginationCapable <;> cases wfu <;>
      simp [repoReadMultiple, executeReturningAll, callPrepareStatement,
        runSelect, addPagination, addFilters_some, SelectStmt.base, hcap,
        stmtHolds_mk, applyLimit]
  · rfl

/-- Claim C4 (counterexample): with a pagination-capable filter whose
limit truncates, `count` does not equal the length of `read_multiple`
for the same filters — `count` ignores pagination while `read_multiple`
applies it. -/
theorem count_differs_from_truncated_read_multiple :
    (repoCount itemRepo sessionTwo (some pagFilterLimitOne)
        Option.none).1 = .ok 2 ∧
    ((repoReadMultiple itemRepo sessionTwo (some pagFilterLimitOne)
        Option.none Option.none false).1).map List.length = .ok 1 ∧
    (2 : Nat) ≠ 1 := by
  refine ⟨rfl, rfl, ?_⟩
  decide

/-- Claim C4 (amended): `count` builds a count query with the same
filter predicates as `read_multiple` and returns the number of records
satisfying them; it equals the length of the sequence returned by
`read_multiple` for the same filters whenever the filter object is not
pagination-capable (when it is, `read_multiple`'s offset/limit window
may truncate). -/
theorem count_equals_read_multiple_length_without_pagination
    (cfg : RepoConfig) (st : SessionState)
    (filters : Option InputSchema) (ac acR ae : Option Bool)
    (wfu : Bool)
    (h : ∀ f, filters = some f → f.paginationCapable = false) :
    (repoCount cfg st filters ac).1 =
      ((repoReadMultiple cfg st filters acR ae wfu).1).map
        List.length := by
  cases filters with
  | none =>
      cases wfu <;>
        simp [repoCount, repoReadMultiple, executeReturningAll,
          executeReturningCount, callPrepareStatement, addFilters,
          addPagination, runSelect, applyLimit, stmtHolds_mk,
          SelectStmt.base, Except.map]
  | some f =>
      have hf : f.paginationCapable = false := h f rfl
      cases wfu <;>
        simp [repoCount, repoReadMultiple, executeReturningAll,
          executeReturningCount, callPrepareStatement, addFilters_some,
          addPagination, hf, runSelect, applyLimit, stmtHolds_mk,
          SelectStmt.base, Except.map]

/-- Witness for `count_equals_read_multiple_length_without_pagination`:
the plain (non-pagination) filter on the two-record session. -/
theorem count_equals_read_multiple_length_witness :
    (∀ f, (some plainFilter : Option InputSchema) = some f →
      f.paginationCapable = false) ∧
    (repoCount itemRepo sessionTwo (some plainFilter) Option.none).1 =
      ((repoReadMultiple itemRepo sessionTwo (some plainFilter)
          Option.none Option.none false).1).map List.length :=
  ⟨fun f hf => by cases hf; rfl,
   count_equals_read_multiple_length_without_pagination itemRepo
     sessionTwo (some plainFilter) Option.none Option.none Option.none
     false (fun f hf => by cases hf; rfl)⟩

/-- Witness for `setup_errors_exactly_characterized`: a well-formed
repository class and a well-formed service class. -/
theorem setup_errors_exactly_characterized_witness :
    ((∃ r, repoInit itemRepoClass Option.none Option.none Option.none =
        .ok r) ↔
      ∃ m, itemRepoClass.modelType = some m ∧
        (itemRepoClass.idAttribute.getD "id") ∈ m.attrs) ∧
    ((repoInit itemRepoClass Option.none Option.none Option.none =
        .error .repositorySetup) ↔
      ¬∃ m, itemRepoClass.modelType = some m ∧
        (itemRepoClass.idAttribute.getD "id") ∈ m.attrs) ∧
    ((serviceInit goodServiceClass = .error .serviceSetup) ↔
      (goodServiceClass.outputSchemaType = Option.none ∨
        goodServiceClass.repositoryType = Option.none)) ∧
    (∀ rc u, goodServiceClass.repositoryType = some rc →
      goodServiceClass.outputSchemaType = some u →
      serviceInit goodServiceClass =
        (repoInit rc (some false) (some true) (some false)).map
          fun repo => { repository := repo }) :=
  setup_errors_exactly_characterized itemRepoClass Option.none
    Option.none Option.none goodServiceClass

end Mixemy
